import Mathlib

/-!
Verification of the usync library (`src/include/usync/usync.hpp`), a header of
low-level synchronization primitives: `spinlock`, `shared_spinlock`,
`synchronized`, `promise` and `pool`.

Each C++ class is shallowly embedded as a Lean state type with pure state
transition functions translated from the source.  Since the primitives are
concurrent, the transition functions of the lock operations take explicit
environment parameters describing what other threads may have done during the
windows the source leaves open (between the relaxed probe load and the
read-modify-write, and at each iteration of a drain loop):

* `interim : Bool` — whether another thread set the flag between the initial
  relaxed load and the subsequent exchange / compare-exchange;
* `spurious : Bool` — whether a `compare_exchange_weak` fails spuriously;
* `obs : List Nat` — the successive reader counts loaded by a spin loop.

A blocking operation (a spin loop whose exit depends on the environment)
returns `Option`: `none` models an execution that is still spinning when the
supplied observations run out.
-/

namespace USync

/-! ## spinlock

```cpp
bool try_lock() noexcept {
    if(flag_.load(std::memory_order_relaxed))
        return false;
    return !flag_.exchange(true, std::memory_order_acquire);
}
void unlock() noexcept { flag_.store(false, std::memory_order_release); }
void lock() noexcept { while(!try_lock()) std::this_thread::yield(); }
bool try_lock_shared() noexcept { return try_lock(); }
void unlock_shared() noexcept { unlock(); }
void lock_shared() noexcept { lock(); }
```

The lock state is the single atomic flag.  `interim` tells whether another
thread set the flag between the relaxed load and the exchange. -/

/-- `spinlock::try_lock`: relaxed probe load, then `exchange(true, acquire)`.
Returns (result, new flag value).  The exchange stores `true` unconditionally
and returns the old value; the function's result is the negation of that old
value. -/
def spinlock.tryLock (flag : Bool) (interim : Bool) : Bool × Bool :=
  if flag then (false, flag)
  else
    let observed := flag || interim
    (!observed, true)

/-- `spinlock::unlock`: store `false`. -/
def spinlock.unlock (_flag : Bool) : Bool := false

/-- `spinlock::lock`: retry `try_lock` until it succeeds, modelled with fuel;
between failed sequential attempts the flag is whatever the attempt left. -/
def spinlock.lock : Nat → Bool → Bool → Option Bool
  | 0, _, _ => none
  | fuel + 1, flag, interim =>
    match spinlock.tryLock flag interim with
    | (true, flag') => some flag'
    | (false, flag') => spinlock.lock fuel flag' false

/-- `spinlock::try_lock_shared` is literally `return try_lock();`. -/
def spinlock.tryLockShared (flag : Bool) (interim : Bool) : Bool × Bool :=
  spinlock.tryLock flag interim

/-- `spinlock::unlock_shared` is literally `unlock();`. -/
def spinlock.unlockShared (flag : Bool) : Bool := spinlock.unlock flag

/-- `spinlock::lock_shared` is literally `lock();`. -/
def spinlock.lockShared (fuel : Nat) (flag : Bool) (interim : Bool) :
    Option Bool :=
  spinlock.lock fuel flag interim

/-! ## shared_spinlock

```cpp
bool try_lock() noexcept {
    if(data_.writer.load(std::memory_order_relaxed))
        return false;
    if(data_.writer.exchange(true, std::memory_order_acquire))
        return false;
    while(data_.readers.load(std::memory_order_relaxed) > 0)
        relax();
    return true;
}
void unlock() noexcept { data_.writer.store(false, std::memory_order_release); }
bool try_lock_shared() noexcept {
    if(data_.writer.load(std::memory_order_relaxed))
        return false;
    data_.readers.fetch_add(1, std::memory_order_relaxed);
    bool expected = true;
    if(data_.writer.compare_exchange_weak(expected, true,
                                          std::memory_order_relaxed)) {
        data_.readers.fetch_sub(1, std::memory_order_relaxed);
        return false;
    }
    return true;
}
void unlock_shared() noexcept {
    data_.readers.fetch_sub(1, std::memory_order_relaxed);
}
```
-/

/-- The two atomic cells of `shared_spinlock`: the writer flag and the reader
count. -/
structure SharedState where
  writer : Bool
  readers : Nat
  deriving Repr, DecidableEq

/-- The drain loop `while(readers.load() > 0) relax();` over the successive
loaded reader counts: `some 0` when a load observes zero (loop exits), `none`
when the observations run out while still positive (still spinning). -/
def sharedSpinlock.drain : List Nat → Option Nat
  | [] => none
  | r :: rest => if r = 0 then some 0 else sharedSpinlock.drain rest

/-- `shared_spinlock::try_lock`: relaxed probe of the writer flag, then
`writer.exchange(true, acquire)`, then spin until a load of `readers` sees 0.
`interim` is whether another thread set the writer flag between the probe and
the exchange; `obs` are the reader counts loaded after the first (the first
load sees the current `s.readers`). -/
def sharedSpinlock.tryLock (s : SharedState) (interim : Bool)
    (obs : List Nat) : Option (Bool × SharedState) :=
  if s.writer then some (false, s)
  else
    let old := s.writer || interim
    if old then some (false, { s with writer := true })
    else
      match sharedSpinlock.drain (s.readers :: obs) with
      | none => none
      | some r => some (true, { writer := true, readers := r })

/-- `shared_spinlock::unlock`: store `false` to the writer flag. -/
def sharedSpinlock.unlock (s : SharedState) : SharedState :=
  { s with writer := false }

/-- `shared_spinlock::try_lock_shared`: relaxed probe of the writer flag;
speculative `readers.fetch_add(1)`; then `compare_exchange_weak(expected=true,
true)` on the writer flag, which succeeds only if the flag compares equal to
`true` and the attempt is not spurious (on success it stores `true`, on
failure it only updates the discarded local `expected`).  If the probe CAS
succeeds — a writer appeared — undo the increment and fail.  `interim` is
whether another thread set the writer flag between the initial load and the
CAS; `spurious` is whether the weak CAS fails spuriously. -/
def sharedSpinlock.tryLockShared (s : SharedState) (interim : Bool)
    (spurious : Bool) : Bool × SharedState :=
  if s.writer then (false, s)
  else
    let s1 : SharedState :=
      { writer := s.writer || interim, readers := s.readers + 1 }
    let casSuccess := s1.writer && !spurious
    if casSuccess then (false, { s1 with readers := s1.readers - 1 })
    else (true, s1)

/-- `shared_spinlock::unlock_shared`: `readers.fetch_sub(1)`. -/
def sharedSpinlock.unlockShared (s : SharedState) : SharedState :=
  { s with readers := s.readers - 1 }

/-! ## synchronized accessors: special member functions

```cpp
struct unique_access {
    unique_access() = delete;
    unique_access(unique_access const&) = delete;
    unique_access& operator=(unique_access const&) = delete;
    unique_access(synchronized& owner) noexcept ...;
private:
    std::unique_lock<L> guard_;
    T& resource_;
};
struct shared_access {
    shared_access() = delete;
    shared_access(shared_access const&) = delete;
    shared_access& operator=(shared_access const&) = delete;
    shared_access(synchronized const& owner) noexcept ...;
private:
    std::shared_lock<L> guard_;
    T const& resource_;
};
```

Which special member functions a C++ class may be used with is determined by
its declarations together with the language rules; we embed the rules that
decide copy/move availability for these two classes. -/

/-- The special-member declarations of a C++ class, read off its definition:
which copy/move constructors and assignment operators, and which destructor,
are user-declared, and whether a user-declared one is `= delete`d. -/
structure CppSpecialMembers where
  userCopyCtor : Bool
  copyCtorDeleted : Bool
  userCopyAssign : Bool
  copyAssignDeleted : Bool
  userMoveCtor : Bool
  moveCtorDeleted : Bool
  userMoveAssign : Bool
  moveAssignDeleted : Bool
  userDtor : Bool
  deriving Repr, DecidableEq

/-- Copy construction is available iff the copy constructor is not deleted;
for classes that user-declare it, that means the declaration is not
`= delete`.  (We only instantiate this at classes with a user-declared copy
constructor, so the implicit-declaration case is the trivial `true`.) -/
def copyConstructionAvailable (c : CppSpecialMembers) : Bool :=
  if c.userCopyCtor then !c.copyCtorDeleted else true

/-- Copy assignment availability, analogous to
`copyConstructionAvailable`. -/
def copyAssignmentAvailable (c : CppSpecialMembers) : Bool :=
  if c.userCopyAssign then !c.copyAssignDeleted else true

/-- Per C++ [class.copy.ctor]p8, a move constructor is implicitly declared
only if the class has no user-declared copy constructor, copy assignment
operator, move assignment operator, or destructor. -/
def implicitMoveCtorDeclared (c : CppSpecialMembers) : Bool :=
  !c.userCopyCtor && !c.userCopyAssign && !c.userMoveAssign && !c.userDtor

/-- Move construction (`X x{std::move(y)}`) is available iff there is a
usable move constructor — user-declared and not deleted, or implicitly
declared — since otherwise overload resolution falls back to the copy
constructor, and for the classes at hand that one is deleted. -/
def moveConstructionAvailable (c : CppSpecialMembers) : Bool :=
  if c.userMoveCtor then !c.moveCtorDeleted
  else implicitMoveCtorDeclared c || copyConstructionAvailable c

/-- The special-member declarations of `synchronized::unique_access`: deleted
copy constructor and copy assignment, no user-declared move operations or
destructor. -/
def unique_access.members : CppSpecialMembers :=
  { userCopyCtor := true, copyCtorDeleted := true
    userCopyAssign := true, copyAssignDeleted := true
    userMoveCtor := false, moveCtorDeleted := false
    userMoveAssign := false, moveAssignDeleted := false
    userDtor := false }

/-- The special-member declarations of `synchronized::shared_access`:
identical pattern to `unique_access`. -/
def shared_access.members : CppSpecialMembers :=
  { userCopyCtor := true, copyCtorDeleted := true
    userCopyAssign := true, copyAssignDeleted := true
    userMoveCtor := false, moveCtorDeleted := false
    userMoveAssign := false, moveAssignDeleted := false
    userDtor := false }

/-! ## promise

```cpp
template<typename T> class promise {
    T value_;
    std::atomic_flag event_;
public:
    promise& operator = (T const& value) {
        value_ = value;
        event_.test_and_set(std::memory_order_relaxed);
        event_.notify_one();
        return *this;
    }
    promise& operator = (T&& value) { ... same with std::move ... }
    T const& await() const& noexcept {
        event_.wait(false, std::memory_order_relaxed);
        return value_;
    }
    T&& await() && noexcept { ... return std::move(value_); }
    void clear() { event_.clear(std::memory_order_relaxed); }
};
```
-/

/-- The state of a `promise<T>`: the value slot and the `atomic_flag`
event. -/
structure Promise (T : Type) where
  value_ : T
  event_ : Bool
  deriving Repr, DecidableEq

/-- `promise::operator=(T const&)`: store the value, then set the event.
(The rvalue overload `operator=(T&&)` performs the same state transition,
moving instead of copying the value into the slot.) -/
def Promise.assign {T : Type} (p : Promise T) (v : T) : Promise T :=
  { p with value_ := v, event_ := true }

/-- `promise::await() const&`: block until the event is set, then return the
stored value by reference, leaving the state unchanged.  A call that would
block forever (event never set, no concurrent publisher) is `none`. -/
def Promise.await {T : Type} (p : Promise T) : Option T :=
  if p.event_ then some p.value_ else none

/-- `promise::await() &&`: same wait, then return the stored value by move.
On a moved-from object the slot no longer owns the value, but the value
returned to the caller is the same stored value. -/
def Promise.awaitMove {T : Type} (p : Promise T) : Option T :=
  if p.event_ then some p.value_ else none

/-- `promise::clear()`: clear the event flag.  Only `event_` is mentioned;
`value_` is untouched. -/
def Promise.clear {T : Type} (p : Promise T) : Promise T :=
  { p with event_ := false }

/-! ## pool

```cpp
template<class T> class pool {
    std::vector<T> recycled_;
    std::list<T> in_use_;
public:
    using pointer = typename std::list<T>::iterator;
    pointer remake() {
        if(recycled_.empty()) {
            in_use_.push_front(T{});
        } else {
            in_use_.push_front(std::move(recycled_.back()));
            recycled_.pop_back();
        }
        return in_use_.begin();
    }
    void recycle(pointer it) {
        recycled_.push_back(std::move(*it));
        in_use_.erase(it);
    }
};
```

`recycled_` is a vector whose back is the most recently pushed element;
`in_use_` is a list whose `begin()` is its head.  A `pointer` (a `std::list`
iterator) is stable; here a handle is a position in `in_use_`, and `remake`
always hands out the front position. -/

/-- The state of a `pool<T>`: the recycled stash (vector, last element =
`back()`) and the in-use list (head = `begin()`). -/
structure Pool (T : Type) where
  recycled_ : List T
  in_use_ : List T
  deriving Repr, DecidableEq

/-- `pool::remake()`: if the stash is empty (`getLast? = none`) push a
default-constructed `T` onto the front of `in_use_`, otherwise move the
stash's `back()` (its last element) onto the front of `in_use_` and pop it;
the returned pointer is `in_use_.begin()`, i.e. the front. -/
def Pool.remake {T : Type} [Inhabited T] (p : Pool T) : Pool T :=
  match p.recycled_.getLast? with
  | none => { p with in_use_ := default :: p.in_use_ }
  | some v =>
    { recycled_ := p.recycled_.dropLast, in_use_ := v :: p.in_use_ }

/-- `pool::recycle(it)`: push the value at `it` onto the back of the stash
and erase it from `in_use_`; `i` is the position of `it` in `in_use_`. -/
def Pool.recycle {T : Type} [Inhabited T] (p : Pool T) (i : Nat) : Pool T :=
  { recycled_ := p.recycled_ ++ [p.in_use_.getD i default],
    in_use_ := p.in_use_.eraseIdx i }

/-- The value denoted by the handle returned by the last `remake` (the front
of `in_use_`). -/
def Pool.frontValue {T : Type} (p : Pool T) : Option T :=
  p.in_use_.head?

/-! ## The spinlock counter test (`src/test/test.cpp`, TEST_CASE "spinlock")

```cpp
resource r;
usync::spinlock guard;
auto t1 = std::thread([&]() {
    for(int i = 0; i != 1000; ++i) {
        std::scoped_lock lock {guard};
        r.turn_up();      // ++value_;
    }
});
auto t2 = std::thread([&]() { ... r.turn_down(); ... });  // --value_;
```

Each thread repeatedly acquires the spinlock, performs a read-modify-write of
the shared counter, and releases.  We model the interleaved execution as a
small-step transition system: each atomic instruction (the successful
`flag_.exchange`, the read of the counter, the write of the counter, the
releasing store) is one step; a failed `try_lock` (probe load or exchange
returning `true`) changes no state and is a stutter, so it is omitted from
the step relation without shrinking the set of reachable states. -/

/-- Program counter of one looping thread: about to attempt the lock, about
to read the counter (lock held), about to write the counter (lock held,
value read into `tmp`), about to release (lock held), or finished. -/
inductive PC where
  | tryAcq
  | readCtr
  | writeCtr
  | release
  | done
  deriving Repr, DecidableEq

/-- One thread of the test: its program counter, the deltas it still has to
apply to the counter (`+1` per remaining `turn_up`, `-1` per remaining
`turn_down`), and its local read of the counter. -/
structure Thread where
  pc : PC
  ops : List Int
  tmp : Int
  deriving Repr, DecidableEq

/-- The whole system: the spinlock's flag, the shared counter, and the two
threads. -/
structure Sys where
  flag : Bool
  counter : Int
  t1 : Thread
  t2 : Thread
  deriving Repr, DecidableEq

/-- A thread holds the spinlock exactly between its successful exchange and
its releasing store. -/
def Thread.holding (th : Thread) : Prop :=
  th.pc = PC.readCtr ∨ th.pc = PC.writeCtr ∨ th.pc = PC.release

instance (th : Thread) : Decidable th.holding := by
  unfold Thread.holding; infer_instance

/-- One atomic instruction of a single thread, acting on the spinlock flag
`f`, the shared counter `c` and the thread state `th`:

* `acquire`: the successful `flag_.exchange(true)` inside `try_lock`, enabled
  only when the flag is clear (a failed attempt is a stutter);
* `finish`: the loop exits when no operations remain;
* `read`: the load of the counter inside the critical section;
* `write`: the store of `tmp ± 1` back to the counter, consuming one delta;
* `unlock`: the releasing `flag_.store(false)` of `spinlock::unlock`. -/
inductive tstep (f : Bool) (c : Int) (th : Thread) :
    Bool → Int → Thread → Prop where
  | acquire (hf : f = false) (hpc : th.pc = PC.tryAcq) (hops : th.ops ≠ []) :
      tstep f c th true c { th with pc := PC.readCtr }
  | finish (hpc : th.pc = PC.tryAcq) (hops : th.ops = []) :
      tstep f c th f c { th with pc := PC.done }
  | read (hpc : th.pc = PC.readCtr) :
      tstep f c th f c { th with pc := PC.writeCtr, tmp := c }
  | write (d : Int) (rest : List Int) (hpc : th.pc = PC.writeCtr)
      (hops : th.ops = d :: rest) :
      tstep f c th f (th.tmp + d) { th with pc := PC.release, ops := rest }
  | unlock (hpc : th.pc = PC.release) :
      tstep f c th false c { th with pc := PC.tryAcq }

/-- One step of the interleaved system: either thread takes one atomic
instruction. -/
inductive Sys.step : Sys → Sys → Prop where
  | left {s : Sys} {f' : Bool} {c' : Int} {th' : Thread}
      (h : tstep s.flag s.counter s.t1 f' c' th') :
      Sys.step s { flag := f', counter := c', t1 := th', t2 := s.t2 }
  | right {s : Sys} {f' : Bool} {c' : Int} {th' : Thread}
      (h : tstep s.flag s.counter s.t2 f' c' th') :
      Sys.step s { flag := f', counter := c', t1 := s.t1, t2 := th' }

/-- The initial state of the test: flag clear, counter at its pre-test
value, both threads at the top of their loops. -/
def initSys (c0 : Int) (ops1 ops2 : List Int) : Sys :=
  { flag := false, counter := c0,
    t1 := { pc := PC.tryAcq, ops := ops1, tmp := 0 },
    t2 := { pc := PC.tryAcq, ops := ops2, tmp := 0 } }

/-- The inductive invariant of the test system: a holding thread implies the
flag is set, at most one thread holds, a thread about to write has an
up-to-date local copy of the counter, a finished thread has no work left,
and the counter accounts for exactly the already-applied deltas. -/
def Inv (c0 tot1 tot2 : Int) (s : Sys) : Prop :=
  (s.t1.holding → s.flag = true) ∧
  (s.t2.holding → s.flag = true) ∧
  ¬(s.t1.holding ∧ s.t2.holding) ∧
  (s.t1.pc = PC.writeCtr → s.t1.tmp = s.counter) ∧
  (s.t2.pc = PC.writeCtr → s.t2.tmp = s.counter) ∧
  (s.t1.pc = PC.done → s.t1.ops = []) ∧
  (s.t2.pc = PC.done → s.t2.ops = []) ∧
  s.counter = c0 + (tot1 - s.t1.ops.sum) + (tot2 - s.t2.ops.sum)

/-- The per-thread operation list of the test with loop bound `N`: `N`
increments and `N` decrements.  (In the test each thread runs `N = 1000`
iterations of a single delta; issuing both kinds per thread only
generalizes.) -/
def incDecOps (N : Nat) : List Int :=
  List.replicate N 1 ++ List.replicate N (-1)

lemma inv_init (c0 : Int) (ops1 ops2 : List Int) :
    Inv c0 ops1.sum ops2.sum (initSys c0 ops1 ops2) := by
  simp [Inv, initSys, Thread.holding]

lemma inv_step {c0 tot1 tot2 : Int} {s s' : Sys}
    (hs : Inv c0 tot1 tot2 s) (h : Sys.step s s') : Inv c0 tot1 tot2 s' := by
  obtain ⟨hA, hB, hC, hD, hE, hF, hG, hH⟩ := hs
  cases h with
  | left h =>
    cases h with
    | acquire hf hpc hops =>
      refine ⟨?_, ?_, ?_, ?_, ?_, ?_, ?_, ?_⟩ <;>
        simp_all [Thread.holding]
    | finish hpc hops =>
      refine ⟨?_, ?_, ?_, ?_, ?_, ?_, ?_, ?_⟩ <;>
        simp_all [Thread.holding]
    | read hpc =>
      refine ⟨?_, ?_, ?_, ?_, ?_, ?_, ?_, ?_⟩ <;>
        simp_all [Thread.holding]
    | write d rest hpc hops =>
      refine ⟨?_, ?_, ?_, ?_, ?_, ?_, ?_, ?_⟩ <;>
        simp_all [Thread.holding]
      omega
    | unlock hpc =>
      refine ⟨?_, ?_, ?_, ?_, ?_, ?_, ?_, ?_⟩ <;>
        simp_all [Thread.holding]
  | right h =>
    cases h with
    | acquire hf hpc hops =>
      refine ⟨?_, ?_, ?_, ?_, ?_, ?_, ?_, ?_⟩ <;>
        simp_all [Thread.holding]
    | finish hpc hops =>
      refine ⟨?_, ?_, ?_, ?_, ?_, ?_, ?_, ?_⟩ <;>
        simp_all [Thread.holding]
    | read hpc =>
      refine ⟨?_, ?_, ?_, ?_, ?_, ?_, ?_, ?_⟩ <;>
        simp_all [Thread.holding]
    | write d rest hpc hops =>
      refine ⟨?_, ?_, ?_, ?_, ?_, ?_, ?_, ?_⟩ <;>
        simp_all [Thread.holding]
      omega
    | unlock hpc =>
      refine ⟨?_, ?_, ?_, ?_, ?_, ?_, ?_, ?_⟩ <;>
        simp_all [Thread.holding]

lemma inv_reach {c0 tot1 tot2 : Int} {s s' : Sys}
    (hs : Inv c0 tot1 tot2 s) (h : Relation.ReflTransGen Sys.step s s') :
    Inv c0 tot1 tot2 s' := by
  induction h with
  | refl => exact hs
  | tail _ hstep ih => exact inv_step ih hstep

lemma counter_of_final {c0 : Int} {ops1 ops2 : List Int} {s : Sys}
    (hreach : Relation.ReflTransGen Sys.step (initSys c0 ops1 ops2) s)
    (h1 : s.t1.pc = PC.done) (h2 : s.t2.pc = PC.done) :
    s.counter = c0 + ops1.sum + ops2.sum := by
  have hinv := inv_reach (inv_init c0 ops1 ops2) hreach
  obtain ⟨-, -, -, -, -, hF, hG, hH⟩ := hinv
  rw [hF h1, hG h2] at hH
  simpa using hH

lemma incDecOps_sum (N : Nat) : (incDecOps N).sum = 0 := by
  simp [incDecOps, List.sum_replicate]

/-! ## Claim theorems -/

lemma drain_eq_zero {l : List Nat} {x : Nat}
    (h : sharedSpinlock.drain l = some x) : x = 0 := by
  induction l with
  | nil => simp [sharedSpinlock.drain] at h
  | cons r rest ih =>
    rw [sharedSpinlock.drain] at h
    by_cases hr : r = 0
    · simp [hr] at h; omega
    · simp [hr] at h; exact ih h

/-- C1: `shared_spinlock::try_lock` returns false iff the writer flag was
already set by another holder (at the probe load or at the exchange); when it
returns true it has set the writer flag and has spun until the reader count
was observed zero, so at the moment of the true return the writer flag is
true and the reader count is zero. -/
theorem sharedSpinlock_tryLock_spec (s : SharedState) (interim : Bool)
    (obs : List Nat) (r : Bool) (s' : SharedState)
    (h : sharedSpinlock.tryLock s interim obs = some (r, s')) :
    (r = false ↔ (s.writer || interim) = true) ∧
    (r = true → s'.writer = true ∧ s'.readers = 0) := by
  by_cases hw : s.writer
  · simp [sharedSpinlock.tryLock, hw] at h
    obtain ⟨hr, _⟩ := h
    simp [hw, ← hr]
  · simp only [sharedSpinlock.tryLock, hw, if_false, Bool.false_or] at h
    by_cases hi : interim
    · simp [hi] at h
      obtain ⟨hr, _⟩ := h
      simp [hw, hi, ← hr]
    · simp only [hi, if_false] at h
      cases hd : sharedSpinlock.drain (s.readers :: obs) with
      | none => simp [hd] at h
      | some x =>
        simp [hd] at h
        obtain ⟨hr, hs⟩ := h
        subst hr
        refine ⟨by simp [hw, hi], fun _ => ?_⟩
        rw [← hs]
        exact ⟨rfl, drain_eq_zero hd⟩

/-- C1 witness: from the unlocked state with no readers, `try_lock`
succeeds and the returned state has the writer flag set and zero readers. -/
theorem sharedSpinlock_tryLock_spec_w :
    ((true = false) ↔ ((SharedState.mk false 0).writer || false) = true) ∧
    (true = true → (SharedState.mk true 0).writer = true ∧
      (SharedState.mk true 0).readers = 0) :=
  sharedSpinlock_tryLock_spec ⟨false, 0⟩ false [] true ⟨true, 0⟩ rfl

/-- C2: whenever `shared_spinlock::try_lock_shared` returns false the lock
state is net unchanged by the call: the reader count equals its value before
the call (the speculative increment is undone by the matching decrement on
the CAS-probe path, and never happens on the fast-fail path), and the call
itself never modifies the writer flag — the final flag value is exactly what
the environment left (`s.writer || interim`; the CAS only ever stores `true`
when the flag already compares equal to `true`). -/
theorem sharedSpinlock_tryLockShared_fail_frame (s : SharedState)
    (interim spurious : Bool)
    (h : (sharedSpinlock.tryLockShared s interim spurious).1 = false) :
    (sharedSpinlock.tryLockShared s interim spurious).2.readers = s.readers ∧
    (sharedSpinlock.tryLockShared s interim spurious).2.writer
      = (s.writer || interim) := by
  by_cases hw : s.writer
  · simp [sharedSpinlock.tryLockShared, hw]
  · by_cases hi : interim
    · by_cases hsp : spurious
      · simp [sharedSpinlock.tryLockShared, hw, hi, hsp] at h
      · simp [sharedSpinlock.tryLockShared, hw, hi, hsp]
    · simp [sharedSpinlock.tryLockShared, hw, hi] at h

/-- C2 witness: with the writer flag already set the shared attempt fails
and the state is returned unchanged. -/
theorem sharedSpinlock_tryLockShared_fail_frame_w :
    (sharedSpinlock.tryLockShared ⟨true, 5⟩ false false).2.readers
        = (SharedState.mk true 5).readers ∧
    (sharedSpinlock.tryLockShared ⟨true, 5⟩ false false).2.writer
        = ((SharedState.mk true 5).writer || false) :=
  sharedSpinlock_tryLockShared_fail_frame ⟨true, 5⟩ false false rfl

/-- C3: in every state whose writer flag is true, `try_lock_shared` returns
false, for every environment behaviour — whether another writer also races
in the probe window and whether the `compare_exchange_weak` fails
spuriously.  (When the flag is true at entry the initial relaxed load
already fails the attempt, so the weak CAS is never reached.) -/
theorem sharedSpinlock_tryLockShared_writer_blocks (s : SharedState)
    (interim spurious : Bool) (hw : s.writer = true) :
    (sharedSpinlock.tryLockShared s interim spurious).1 = false := by
  simp [sharedSpinlock.tryLockShared, hw]

/-- C3 witness: a shared attempt against a held writer flag fails, even with
a spurious CAS failure allowed. -/
theorem sharedSpinlock_tryLockShared_writer_blocks_w :
    (sharedSpinlock.tryLockShared ⟨true, 0⟩ false true).1 = false :=
  sharedSpinlock_tryLockShared_writer_blocks ⟨true, 0⟩ false true rfl

/-- C4: `spinlock::try_lock` is a single non-blocking exchange attempt: when
the flag is already set (at the probe load or at the exchange) it returns
false and leaves the flag at its already-set value; it returns true iff the
exchange observed the flag clear (no interim setter) and then the flag has
been set. -/
theorem spinlock_tryLock_spec (f i : Bool) :
    ((f || i) = true → spinlock.tryLock f i = (false, f || i)) ∧
    ((spinlock.tryLock f i).1 = true ↔ (f = false ∧ i = false)) ∧
    ((spinlock.tryLock f i).1 = true → (spinlock.tryLock f i).2 = true) := by
  cases f <;> cases i <;> simp [spinlock.tryLock]

/-- C4 witness: on a set flag the attempt fails and leaves the flag set;
on a clear uncontended flag it succeeds. -/
theorem spinlock_tryLock_spec_w :
    spinlock.tryLock true false = (false, true || false) ∧
    (spinlock.tryLock false false).1 = true :=
  ⟨(spinlock_tryLock_spec true false).1 rfl,
   ((spinlock_tryLock_spec false false).2.1).mpr ⟨rfl, rfl⟩⟩

/-- C10: the shared operations of `spinlock` are exactly its exclusive ones
(`try_lock_shared` = `try_lock`, `unlock_shared` = `unlock`, `lock_shared` =
`lock`), and consequently at most one shared holder can exist at a time: a
successful shared acquisition leaves a state in which every further shared
attempt fails. -/
theorem spinlock_shared_eq_exclusive :
    spinlock.tryLockShared = spinlock.tryLock ∧
    spinlock.unlockShared = spinlock.unlock ∧
    spinlock.lockShared = spinlock.lock ∧
    ∀ f i f', spinlock.tryLockShared f i = (true, f') →
      ∀ i2, (spinlock.tryLockShared f' i2).1 = false := by
  refine ⟨rfl, rfl, rfl, ?_⟩
  intro f i f' h i2
  cases f <;> cases i <;>
    simp_all [spinlock.tryLockShared, spinlock.tryLock]

/-- C10 witness: after a successful shared acquisition from the clear state,
a second shared attempt fails. -/
theorem spinlock_shared_eq_exclusive_w :
    (spinlock.tryLockShared true false).1 = false :=
  spinlock_shared_eq_exclusive.2.2.2 false false true rfl false

/-- C5: for every pool state and every in-use handle (position `i` in
`in_use_`), `recycle` followed by `remake` with no intervening checkout
yields a handle (the front of `in_use_`) denoting the same value the
recycled handle denoted — the most recently recycled entry is reused, LIFO —
and `remake` on an empty stash hands out a default-constructed value. -/
theorem pool_recycle_remake_lifo {T : Type} [Inhabited T] (p : Pool T)
    (i : Nat) (hi : i < p.in_use_.length) :
    ((p.recycle i).remake).frontValue = some (p.in_use_.get ⟨i, hi⟩) ∧
    (p.recycled_ = [] → p.remake.frontValue = some (default : T)) := by
  constructor
  · simp [Pool.recycle, Pool.remake, Pool.frontValue, List.getLast?_concat,
      List.getD_eq_getElem?_getD, List.getElem?_eq_getElem hi]
  · intro he
    simp [Pool.remake, Pool.frontValue, he]

/-- C5 witness: recycling the second of two in-use entries and remaking
yields that entry's value back; a remake on an empty stash yields the
default. -/
theorem pool_recycle_remake_lifo_w :
    (((Pool.mk ([] : List Nat) [10, 20]).recycle 1).remake).frontValue
        = some ((Pool.mk ([] : List Nat) [10, 20]).in_use_.get
            ⟨1, by decide⟩) ∧
    ((Pool.mk ([] : List Nat) [10, 20]).recycled_ = [] →
      (Pool.mk ([] : List Nat) [10, 20]).remake.frontValue
        = some (default : Nat)) :=
  pool_recycle_remake_lifo (Pool.mk [] [10, 20]) 1 (by decide)

/-- C6: after a publish of `v` (either assignment overload performs the same
store-then-set-event transition), the event is set and `await` returns
exactly `v` — the lvalue overload (`await`) without consuming the slot
(`await` is a pure read of the state) and the rvalue overload (`awaitMove`)
by move; and a publish with no intervening read overwrites the previously
stored value. -/
theorem promise_assign_await (T : Type) (p : Promise T) (v v' : T) :
    (p.assign v).await = some v ∧
    (p.assign v).awaitMove = some v ∧
    (p.assign v).event_ = true ∧
    ((p.assign v).assign v').value_ = v' := by
  simp [Promise.assign, Promise.await, Promise.awaitMove]

/-- C9: `promise::clear` resets only the ready event: the value slot is
unchanged, and if the event is subsequently re-set without storing, `await`
still finds the last published value. -/
theorem promise_clear_frame (T : Type) (p : Promise T) :
    (p.clear).value_ = p.value_ ∧
    (p.clear).event_ = false ∧
    ({ p.clear with event_ := true } : Promise T).await = some p.value_ := by
  simp [Promise.clear, Promise.await]

/-- C7 counterexample: the claim asserts move construction is available for
`unique_access` and `shared_access`, but both user-declare (and delete)
their copy constructor and copy assignment, which suppresses the implicit
move constructor; an attempted move falls back to the deleted copy
constructor, so move construction is unavailable for both. -/
theorem synchronized_accessors_movable_cex :
    ¬(moveConstructionAvailable unique_access.members = true ∧
      moveConstructionAvailable shared_access.members = true) := by
  decide

/-- C7 amended: both accessor types of `synchronized` are non-copyable (copy
construction and copy assignment unavailable) and also non-movable (no move
constructor is implicitly declared, and overload resolution falls back to
the deleted copy constructor). -/
theorem synchronized_accessors_noncopyable_nonmovable :
    copyConstructionAvailable unique_access.members = false ∧
    copyAssignmentAvailable unique_access.members = false ∧
    moveConstructionAvailable unique_access.members = false ∧
    copyConstructionAvailable shared_access.members = false ∧
    copyAssignmentAvailable shared_access.members = false ∧
    moveConstructionAvailable shared_access.members = false := by
  decide

/-- C8: for every N, after two threads each perform their N increments and N
decrements of the shared counter, every operation under the same `spinlock`,
any complete interleaved execution (both threads finished) leaves the
counter at its pre-test value — no lost updates. -/
theorem spinlock_no_lost_updates (N : Nat) (c0 : Int) (s : Sys)
    (hreach : Relation.ReflTransGen Sys.step
      (initSys c0 (incDecOps N) (incDecOps N)) s)
    (h1 : s.t1.pc = PC.done) (h2 : s.t2.pc = PC.done) :
    s.counter = c0 := by
  have h := counter_of_final hreach h1 h2
  simpa [incDecOps_sum] using h

/-- C8 witness: the two-step execution of the test at `N = 0` (each thread
immediately observes an empty work list and finishes) ends with the counter
at its initial value. -/
theorem spinlock_no_lost_updates_w :
    (Sys.mk false 0 (Thread.mk PC.done [] 0) (Thread.mk PC.done [] 0)).counter
      = 0 :=
  spinlock_no_lost_updates 0 0
    (Sys.mk false 0 (Thread.mk PC.done [] 0) (Thread.mk PC.done [] 0))
    (Relation.ReflTransGen.head
      (Sys.step.left (tstep.finish rfl rfl))
      (Relation.ReflTransGen.single (Sys.step.right (tstep.finish rfl rfl))))
    rfl rfl

end USync
